import Mathlib

/-!
Shallow embedding of the MRF tile storage engine (src/gdal_mrf/frmts/mrf/mrf_band.cpp)
and the bulk insert tool (src/gdal_mrf/mrf_apps/mrf_insert.cpp), with proofs of the
spec claims about them.  Buffers are modelled as lists of natural numbers; tile
buffers are lists of element values of the band datatype.  External collaborators
(codec, zlib, GDAL framework) appear as function parameters; the few helpers that
are declared outside the two source files (WriteTile, bandbit, AllBandMask) are
modelled from the spec and marked as such in their doc comments.
-/

namespace MRF

/-- Overwrite the bytes of `b` starting at `off` with `d` (memcpy semantics). -/
def writeAt (b : List Nat) (off : Nat) (d : List Nat) : List Nat :=
  b.take off ++ d ++ b.drop (off + d.length)

/-- Source `is_zero` (mrf_band.cpp line 82): every entry of the buffer is zero. -/
def is_zero (b : List Nat) : Bool := b.all (fun x => x == 0)

/-- Source `is_empty` (mrf_band.cpp line 89): every entry of the buffer equals `val`. -/
def is_empty (b : List Nat) (val : Nat) : Bool := b.all (fun x => x == val)

/-- The MRF supported band datatypes (the ones mrf_band.cpp handles). -/
inductive GDT where
  | Byte
  | UInt16
  | Int16
  | UInt32
  | Int32
  | Float32
  | Float64
deriving DecidableEq

/-- GDALGetDataTypeSize: size of the datatype in bits. -/
def dtSizeBits : GDT → Nat
  | GDT.Byte => 8
  | GDT.UInt16 => 16
  | GDT.Int16 => 16
  | GDT.UInt32 => 32
  | GDT.Int32 => 32
  | GDT.Float32 => 32
  | GDT.Float64 => 64

/-- Byte swap of a 16 bit value (source macro swab16). -/
def swab16v (v : Nat) : Nat := v % 256 * 256 + v / 256

/-- Byte swap of a 32 bit value (source macro swab32). -/
def swab32v (v : Nat) : Nat := swab16v (v % 65536) * 65536 + swab16v (v / 65536)

/-- Byte swap of a 64 bit value (source macro swab64). -/
def swab64v (v : Nat) : Nat := swab32v (v % 4294967296) * 4294967296 + swab32v (v / 4294967296)

/-- Source `swab_buff` (mrf_band.cpp line 97): swap bytes in place, per element,
dispatching on the datatype size; 8 bit data is left alone. -/
def swab_buff (dt : GDT) (l : List Nat) : List Nat :=
  match dtSizeBits dt with
  | 16 => l.map swab16v
  | 32 => l.map swab32v
  | 64 => l.map swab64v
  | _ => l

/-- A rectangular block (tile) region at one pyramid level, in tile coordinates
(mrf_insert.cpp lines 270 to 274: BlockXOut, BlockYOut, WidthOut, HeightOut).
All four quantities are nonnegative in the propagation loop, so they are
naturals; `/` is then exactly the truncating integer division of the source. -/
structure Region where
  blockX : Nat
  blockY : Nat
  width : Nat
  height : Nat
deriving DecidableEq

/-- One level step of the overview patch propagator, from `state::patch`
(mrf_insert.cpp lines 291 to 297).  The width and height are updated first,
using the old block coordinates, exactly as in the source. -/
def patchLevelStep (r : Region) : Region :=
  { blockX := r.blockX / 2
    blockY := r.blockY / 2
    width := r.width / 2 + (r.width &&& 1) + (r.blockX &&& 1)
    height := r.height / 2 + (r.height &&& 1) + (r.blockY &&& 1) }

/-- A requested pixel window, as passed to RasterIO (mrf_insert.cpp line 38). -/
structure Window where
  xOff : Int
  yOff : Int
  xSize : Int
  ySize : Int
deriving DecidableEq

/-- End clipping of one axis (mrf_insert.cpp lines 65 to 66 and 76 to 77):
if the window runs past the band extent, trim its size. -/
def clipAxisEnd (bound off1 sz1 : Int) : Int × Int :=
  if off1 + sz1 > bound then (off1, bound - off1) else (off1, sz1)

/-- Clipping of one axis (mrf_insert.cpp lines 58 to 78): when the axis needs a
clip, first move a negative start to zero, shrinking the size, then trim the end. -/
def clipAxis (bound off sz : Int) : Int × Int :=
  if off < 0 ∨ off + sz > bound then
    clipAxisEnd bound (if off < 0 then 0 else off) (if off < 0 then sz + off else sz)
  else (off, sz)

/-- Source ` ClippedRasterIO` (mrf_insert.cpp lines 38 to 84), read case: the window
actually passed to the underlying `band->RasterIO` call.  If the request is fully in
bounds it is passed through; otherwise each axis is clipped independently. -/
def ClippedRasterIO (xB yB : Int) (w : Window) : Window :=
  if 0 ≤ w.xOff ∧ w.xOff + w.xSize ≤ xB ∧ 0 ≤ w.yOff ∧ w.yOff + w.ySize ≤ yB then w
  else
    { xOff := (clipAxis xB w.xOff w.xSize).1
      yOff := (clipAxis yB w.yOff w.ySize).1
      xSize := (clipAxis xB w.xOff w.xSize).2
      ySize := (clipAxis yB w.yOff w.ySize).2 }

/-- Source `buf_mgr` for the deflate stage: `buffer` is the whole allocation the
input sits in (input region followed by the trailing free space), `size` is the
number of input bytes, so the input is `buffer.take size`. -/
structure buf_mgr where
  buffer : List Nat
  size : Nat
deriving DecidableEq

/-- Result of one `ZPack` call (zlib wrapper, declared outside these source
files, so kept abstract): on success the compressed bytes written to the
destination, on failure whatever partial bytes it may have written there. -/
inductive ZRes where
  | ok (out : List Nat)
  | fail (junk : List Nat)
deriving DecidableEq

/-- What pointer `DeflateBlock` returned: NULL, the trailing free space
(`src.buffer + src.size`), or the start of the input region after the copy back
from the temporary buffer. -/
inductive DeflateRet where
  | fail
  | inplace (newSize : Nat)
  | viaTemp (newSize : Nat)
deriving DecidableEq

/-- Full outcome of a `DeflateBlock` call: the returned pointer, the contents of
the original allocation afterwards, the reported size (`src.size` after the
call), and whether a temporary buffer allocation was attempted. -/
structure DeflateOut where
  ret : DeflateRet
  buf : List Nat
  size : Nat
  allocatedTemp : Bool
deriving DecidableEq

/-- Source `DeflateBlock` (mrf_band.cpp lines 126 to 160).  `extrasize` is the
free space past the input.  When `extrasize < src.size + 64` a temporary buffer
of `src.size + 64` bytes is allocated (`allocOk` models whether CPLMalloc
succeeds), `zpack` compresses into it and on success the output is copied back
over the start of the input region; otherwise `zpack` compresses directly into
the trailing free space.  On any failure the function returns NULL. -/
def DeflateBlock (src : buf_mgr) (extrasize : Nat) (zpack : List Nat → Nat → ZRes)
    (allocOk : Bool) : DeflateOut :=
  if extrasize < src.size + 64 then
    if allocOk then
      match zpack (src.buffer.take src.size) (src.size + 64) with
      | ZRes.fail _ => ⟨DeflateRet.fail, src.buffer, src.size, true⟩
      | ZRes.ok out => ⟨DeflateRet.viaTemp out.length, writeAt src.buffer 0 out, out.length, true⟩
    else ⟨DeflateRet.fail, src.buffer, src.size, true⟩
  else
    match zpack (src.buffer.take src.size) extrasize with
    | ZRes.fail junk => ⟨DeflateRet.fail, writeAt src.buffer src.size junk, src.size, false⟩
    | ZRes.ok out => ⟨DeflateRet.inplace out.length, writeAt src.buffer src.size out, out.length, false⟩

/-- Concrete compression stub for closed statements: always fails, writing one
junk byte. -/
def zpackFail9 : List Nat → Nat → ZRes := fun _ _ => ZRes.fail [9]

/-- The persistent state of one store: the tile index (a flat table of
offset and size pairs, addressed by position) and the data store bytes. -/
structure MRFStore where
  index : List (Nat × Nat)
  dataBytes : List Nat
deriving DecidableEq

/-- Modelled from the spec: `GDALMRFDataset::WriteTile` is declared outside the
two source files (only its callers are in mrf_band.cpp).  Per the spec, a
successful tile write appends the tile bytes to the data store and records the
pair (offset, size) at the index position of the tile; a write with a null or
marker buffer and size zero records a zero length index entry and appends
nothing. -/
def WriteTile (store : MRFStore) (tileBytes : Option (List Nat)) (idxPos : Nat) : MRFStore :=
  match tileBytes with
  | none => { store with index := store.index.set idxPos (0, 0) }
  | some bytes =>
      { index := store.index.set idxPos (store.dataBytes.length, bytes.length)
        dataBytes := store.dataBytes ++ bytes }

/-- Modelled from the spec: `bandbit` (declared in a header outside these source
files) is the bit of one band in the per band bitmask. -/
def bandbit (i : Nat) : Nat := 2 ^ i

/-- Modelled from the spec: `AllBandMask` (declared in a header outside these
source files) has the bits of all bands set. -/
def AllBandMask (nBands : Nat) : Nat := 2 ^ nBands - 1

/-- The emptiness test both write paths apply to one band of data
(mrf_band.cpp lines 672 to 675 and 740 to 744): for Byte data with a declared
NoData list the band is empty when every entry equals the NoData value,
otherwise it is empty when every entry is zero. -/
def bandEmpty (dt : GDT) (hasNoDataList : Bool) (ndv : Nat) (img : List Nat) : Bool :=
  if dt = GDT.Byte ∧ hasNoDataList = true then is_empty img ndv else is_zero img

/-- The band separate branch of `GDALMRFRasterBand::IWriteBlock`
(mrf_band.cpp lines 670 to 699): if the tile is empty per `bandEmpty`, write a
zero length index entry; otherwise swap bytes when the datatype is endianness
dependent and the declared byte order is not network order, run the compression
pipeline `f` (the codec plus the optional deflate stage) and store the result. -/
def IWriteBlockSeparate (store : MRFStore) (idxPos : Nat) (dt : GDT) (hasNoDataList : Bool)
    (ndv : Nat) (endianDep nboIsNet : Bool) (f : List Nat → List Nat)
    (buffer : List Nat) : MRFStore :=
  if bandEmpty dt hasNoDataList ndv buffer then
    WriteTile store none idxPos
  else
    WriteTile store
      (some (f (if endianDep && !nboIsNet then swab_buff dt buffer else buffer))) idxPos

/-- The per band empties bitmask accumulated by the interleaved branch of
`IWriteBlock` (mrf_band.cpp lines 707 to 744): a band whose block is not
resident (`none`) is skipped entirely, leaving its bit clear; a resident band
sets its bit when it is empty per `bandEmpty`. -/
def computeEmpties (dt : GDT) (hasNoDataList : Bool) (ndv : Nat) :
    List (Option (List Nat)) → Nat → Nat
  | [], _ => 0
  | b :: rest, i =>
    (match b with
     | none => 0
     | some img => if bandEmpty dt hasNoDataList ndv img then bandbit i else 0) |||
      computeEmpties dt hasNoDataList ndv rest (i + 1)

/-- The interleaved page assembled by `cpy_stride_out` (mrf_band.cpp lines 748
to 762): entry `j * N + i` of the page is element `j` of band `i`; a band whose
block is not resident is skipped, leaving its entries stale (`none`). -/
def assemble (count : Nat) (bands : List (Option (List Nat))) : List (Option Nat) :=
  (List.range (count * bands.length)).map (fun p =>
    match bands.getD (p % bands.length) none with
    | some img => img.get? (p / bands.length)
    | none => none)

/-- Concrete pipeline for closed statements: reads the assembled page off as it
is, stale entries as zero. -/
def flattenPage (l : List (Option Nat)) : List Nat := l.map (fun o => o.getD 0)

/-- The interleaved branch of `GDALMRFRasterBand::IWriteBlock`
(mrf_band.cpp lines 702 to 810): if the empties bitmask reaches the all bands
mask, write a zero length index entry; otherwise run the compression pipeline
`f` on the assembled page and store the result.  The source applies no byte
order swap in this branch. -/
def IWriteBlockInterleaved (store : MRFStore) (idxPos : Nat) (dt : GDT) (hasNoDataList : Bool)
    (ndv : Nat) (count : Nat) (f : List (Option Nat) → List Nat)
    (bands : List (Option (List Nat))) : MRFStore :=
  if computeEmpties dt hasNoDataList ndv bands 0 = AllBandMask bands.length then
    WriteTile store none idxPos
  else
    WriteTile store (some (f (assemble count bands))) idxPos

/-- What `GDALMRFRasterBand::IReadBlock` decides to do after the index lookup. -/
inductive ReadAction where
  | fill
  | fetch
  | readTile
deriving DecidableEq

/-- The dispatch of `IReadBlock` on the index entry (mrf_band.cpp lines 569 to
579): a zero size entry yields a fill when the offset is nonzero (confirmed
empty), the dataset is open for update, no source is configured, or the index
mode is read only; otherwise a zero size entry triggers a fetch, and a nonzero
size entry is read from the data store. -/
def IReadBlockDispatch (tinfoOffset tinfoSize : Nat)
    (accessIsUpdate sourceEmpty idxModeRead : Bool) : ReadAction :=
  if tinfoSize = 0 then
    if tinfoOffset ≠ 0 ∨ accessIsUpdate = true ∨ sourceEmpty = true ∨ idxModeRead = true then
      ReadAction.fill
    else ReadAction.fetch
  else ReadAction.readTile

/-- Conversion of the (integral) NoData value to the band datatype, as performed
by the casts `T(ndv)` in `FillBlock` and by the int conversion inside memset.
Unsigned types wrap modulo their width, signed types wrap into their range,
floating types keep the value. -/
def castTo (dt : GDT) (v : Int) : Int :=
  match dt with
  | GDT.Byte => v % 256
  | GDT.UInt16 => v % 65536
  | GDT.Int16 => (v + 32768) % 65536 - 32768
  | GDT.UInt32 => v % 4294967296
  | GDT.Int32 => (v + 2147483648) % 4294967296 - 2147483648
  | GDT.Float32 => v
  | GDT.Float64 => v

/-- Source `buff_fill` (mrf_band.cpp line 257): write `ndv` into every element
of the buffer. -/
def buff_fill (count : Nat) (ndv : Int) : List Int := List.replicate count ndv

/-- Source `GDALMRFRasterBand::FillBlock` (mrf_band.cpp lines 270 to 295),
element level: with no declared NoData the value is zero and the memset path
runs; Byte data also uses memset (each byte gets the value modulo 256); other
datatypes run the typed fill loop with the cast NoData value. -/
def FillBlock (hasNoData : Bool) (ndv : Int) (dt : GDT) (count : Nat) : List Int :=
  let v : Int := if hasNoData then ndv else 0
  if ¬hasNoData ∨ dt = GDT.Byte then buff_fill count (v % 256)
  else buff_fill count (castTo dt v)

/-- What the deflate stage of a stored tile read produced: the bytes handed on
to the decodec, and whether the inflate failure warning was emitted. -/
structure ReadTrace where
  decodecInput : List Nat
  warned : Bool
deriving DecidableEq

/-- The inflate step of `IReadBlock` (mrf_band.cpp lines 606 to 620): when the
deflate stage is enabled, try to inflate the stored bytes; on success hand the
inflated bytes on, on failure warn and hand the stored bytes on unchanged. -/
def readStoredTile (deflateOn : Bool) (inflate : List Nat → Option (List Nat))
    (data : List Nat) : ReadTrace :=
  if deflateOn then
    match inflate data with
    | some unpacked => ⟨unpacked, false⟩
    | none => ⟨data, true⟩
  else ⟨data, false⟩

/-- The stored tile branch of `IReadBlock` after the bytes are read
(mrf_band.cpp lines 606 to 633): the optional inflate step, then the decodec
(`Decompress`) on whatever bytes the inflate step handed on.  The pair is the
decodec result and the warning flag. -/
def IReadBlockStored (deflateOn : Bool) (inflate decompress : List Nat → Option (List Nat))
    (data : List Nat) : Option (List Nat) × Bool :=
  (decompress (readStoredTile deflateOn inflate data).decodecInput,
   (readStoredTile deflateOn inflate data).warned)

/-- Concrete inflate stub for closed statements: always fails. -/
def inflateFail : List Nat → Option (List Nat) := fun _ => none

/-- Concrete decodec stub for closed statements: succeeds with its input. -/
def decompressSome : List Nat → Option (List Nat) := fun l => some l

end MRF

namespace MRF

/-- Claim C1: in the overview patch propagator, every level step updates the
region exactly by the stated rule: new width is width/2 + width mod 2 + blockX
mod 2, new height is height/2 + height mod 2 + blockY mod 2, new blockX is
blockX/2 and new blockY is blockY/2, with truncating integer division
(mrf_insert.cpp lines 291 to 297, where the source writes the mod 2 terms as
bitwise and with 1). -/
theorem claim_C1 (r : Region) :
    patchLevelStep r =
      { blockX := r.blockX / 2
        blockY := r.blockY / 2
        width := r.width / 2 + r.width % 2 + r.blockX % 2
        height := r.height / 2 + r.height % 2 + r.blockY % 2 } := by
  simp [patchLevelStep, Nat.and_one_is_mod]

/-- Claim C8, counterexample: applying the level step rule to the base region
(blockX 3, blockY 5, width 4, height 3) does not give the region claimed in the
spec, whose height field says 2. -/
theorem claim_C8_counterexample :
    patchLevelStep ⟨3, 5, 4, 3⟩ ≠ ⟨1, 2, 3, 2⟩ := by decide

/-- Claim C8, amended: applying the level step rule to the base region
(blockX 3, blockY 5, width 4, height 3) gives the level 1 region
(blockX 1, blockY 2, width 3, height 3): the height is 3/2 + (3 mod 2) +
(5 mod 2) = 3, not 2. -/
theorem claim_C8_amended :
    patchLevelStep ⟨3, 5, 4, 3⟩ = ⟨1, 2, 3, 3⟩ := by decide

/-- Helper: the window produced by clipping one axis starts at a nonnegative
offset and ends at or before the bound. -/
theorem clipAxis_bounds (bound off sz : Int) :
    0 ≤ (clipAxis bound off sz).1 ∧
      (clipAxis bound off sz).1 + (clipAxis bound off sz).2 ≤ bound := by
  unfold clipAxis clipAxisEnd
  split_ifs <;> dsimp only <;> omega

/-- Claim C10: whatever window is requested, the window ` ClippedRasterIO`
passes to the underlying band read satisfies 0 ≤ xOff, xOff + xSize ≤ band X
size, 0 ≤ yOff and yOff + ySize ≤ band Y size, so no pixel outside the source
band is ever requested (mrf_insert.cpp lines 38 to 84). -/
theorem claim_C10 (xB yB : Int) (w : Window) :
    0 ≤ ( ClippedRasterIO xB yB w).xOff ∧
    ( ClippedRasterIO xB yB w).xOff + ( ClippedRasterIO xB yB w).xSize ≤ xB ∧
    0 ≤ ( ClippedRasterIO xB yB w).yOff ∧
    ( ClippedRasterIO xB yB w).yOff + ( ClippedRasterIO xB yB w).ySize ≤ yB := by
  unfold ClippedRasterIO
  split_ifs with h
  · exact ⟨h.1, h.2.1, h.2.2.1, h.2.2.2⟩
  · dsimp only
    exact ⟨(clipAxis_bounds xB w.xOff w.xSize).1, (clipAxis_bounds xB w.xOff w.xSize).2,
      (clipAxis_bounds yB w.yOff w.ySize).1, (clipAxis_bounds yB w.yOff w.ySize).2⟩

/-- Claim C2: for every call to `DeflateBlock`, when the trailing free space is
at least the input size plus 64 bytes, the compression goes into the trailing
free space and no temporary buffer is allocated; otherwise a temporary buffer
is allocated, the compression goes there, and on success the compressed bytes
are copied back over the start of the input region (mrf_band.cpp lines 126 to
160). -/
theorem claim_C2 (src : buf_mgr) (extrasize : Nat) (zpack : List Nat → Nat → ZRes) :
    (src.size + 64 ≤ extrasize →
      ∀ allocOk : Bool,
        (DeflateBlock src extrasize zpack allocOk).allocatedTemp = false ∧
        DeflateBlock src extrasize zpack allocOk =
          (match zpack (src.buffer.take src.size) extrasize with
           | ZRes.fail junk => ⟨DeflateRet.fail, writeAt src.buffer src.size junk, src.size, false⟩
           | ZRes.ok out =>
               ⟨DeflateRet.inplace out.length, writeAt src.buffer src.size out, out.length, false⟩)) ∧
    (extrasize < src.size + 64 →
      (DeflateBlock src extrasize zpack true).allocatedTemp = true ∧
      DeflateBlock src extrasize zpack true =
        (match zpack (src.buffer.take src.size) (src.size + 64) with
         | ZRes.fail _ => ⟨DeflateRet.fail, src.buffer, src.size, true⟩
         | ZRes.ok out =>
             ⟨DeflateRet.viaTemp out.length, writeAt src.buffer 0 out, out.length, true⟩)) := by
  constructor
  · intro h allocOk
    have hlt : ¬ extrasize < src.size + 64 := by omega
    cases hz : zpack (src.buffer.take src.size) extrasize <;>
      simp [DeflateBlock, hlt, hz]
  · intro h
    cases hz : zpack (src.buffer.take src.size) (src.size + 64) <;>
      simp [DeflateBlock, h, hz]

/-- Helper: a write at offset `n` does not change the first `n` entries. -/
theorem writeAt_take (b : List Nat) (n : Nat) (d : List Nat) (h : n ≤ b.length) :
    (writeAt b n d).take n = b.take n := by
  have hl : n ≤ (b.take n).length := by simp [h]
  rw [writeAt, List.append_assoc, List.take_append_of_le_length hl, List.take_take]
  simp

/-- Claim C9: whenever `DeflateBlock` fails (temporary buffer allocation failure
or compression failure) it returns NULL, and the original input bytes (the
first `src.size` bytes of the allocation) and the recorded input size are left
unchanged (mrf_band.cpp lines 136 to 148). -/
theorem claim_C9 (src : buf_mgr) (extrasize : Nat) (zpack : List Nat → Nat → ZRes)
    (allocOk : Bool) (hsz : src.size ≤ src.buffer.length)
    (hfail : (DeflateBlock src extrasize zpack allocOk).ret = DeflateRet.fail) :
    (DeflateBlock src extrasize zpack allocOk).buf.take src.size = src.buffer.take src.size ∧
    (DeflateBlock src extrasize zpack allocOk).size = src.size := by
  unfold DeflateBlock at *
  split_ifs at * with h1 h2
  · cases hz : zpack (src.buffer.take src.size) (src.size + 64) <;> simp [hz] at hfail ⊢
  · simp
  · cases hz : zpack (src.buffer.take src.size) extrasize <;> simp [hz] at hfail ⊢
    exact writeAt_take src.buffer src.size _ hsz

/-- Witness for claim C9 at a concrete input: a deflate call whose compression
step fails leaves the two input bytes and the recorded size untouched. -/
theorem claim_C9_witness :
    (DeflateBlock ⟨[1, 2, 3, 4], 2⟩ 100 zpackFail9 true).buf.take 2 = [1, 2] ∧
    (DeflateBlock ⟨[1, 2, 3, 4], 2⟩ 100 zpackFail9 true).size = 2 :=
  claim_C9 ⟨[1, 2, 3, 4], 2⟩ 100 zpackFail9 true (by decide) (by decide)

/-- Helper: reading back an index entry just set, inside the table. -/
theorem getD_set_self {α : Type} (l : List α) (i : Nat) (a d : α) (h : i < l.length) :
    (l.set i a).getD i d = a := by
  induction l generalizing i with
  | nil => simp at h
  | cons x xs ih =>
    cases i with
    | zero => rfl
    | succ n => exact ih n (by simpa using h)

/-- Claim C3, counterexample: the claim says a band separate write of a tile
entirely equal to the declared NoData value records a zero length index entry
and stores no bytes; for an Int16 band with declared NoData 5 and a tile whose
elements are all 5, the source runs the is_zero test instead, the tile is not
elided, and the write stores the tile bytes. -/
theorem claim_C3_counterexample :
    is_empty [5, 5] 5 = true ∧
    ¬ ((( IWriteBlockSeparate ⟨[(7, 7)], []⟩ 0 GDT.Int16 true 5 false true id
            [5, 5]).index.getD 0 (1, 1)).2 = 0 ∧
       ( IWriteBlockSeparate ⟨[(7, 7)], []⟩ 0 GDT.Int16 true 5 false true id
            [5, 5]).dataBytes = []) := by decide

/-- Claim C3, amended: for a band separate write, when the datatype is Byte and
a NoData value is declared, a tile buffer entirely equal to the NoData value
yields a zero length index entry and no stored bytes; otherwise (non Byte
datatype, or no declared NoData) a tile buffer that is entirely zero yields a
zero length index entry and no stored bytes (mrf_band.cpp lines 670 to 676). -/
theorem claim_C3_amended (store : MRFStore) (idxPos : Nat) (dt : GDT)
    (hasNoDataList : Bool) (ndv : Nat) (endianDep nboIsNet : Bool)
    (f : List Nat → List Nat) (buffer : List Nat)
    (hp : idxPos < store.index.length)
    (he : bandEmpty dt hasNoDataList ndv buffer = true) :
    (( IWriteBlockSeparate store idxPos dt hasNoDataList ndv endianDep nboIsNet f
        buffer).index.getD idxPos (1, 1)).2 = 0 ∧
    ( IWriteBlockSeparate store idxPos dt hasNoDataList ndv endianDep nboIsNet f
        buffer).dataBytes = store.dataBytes := by
  unfold IWriteBlockSeparate
  rw [if_pos he]
  unfold WriteTile
  exact ⟨by rw [getD_set_self store.index idxPos (0, 0) (1, 1) hp], rfl⟩

/-- Witness for the amended claim C3 at a concrete input: a Byte tile of NoData
threes is elided and the data store keeps only its previous byte. -/
theorem claim_C3_witness :
    (( IWriteBlockSeparate ⟨[(7, 7)], [9]⟩ 0 GDT.Byte true 3 false true id
        [3, 3]).index.getD 0 (1, 1)).2 = 0 ∧
    ( IWriteBlockSeparate ⟨[(7, 7)], [9]⟩ 0 GDT.Byte true 3 false true id
        [3, 3]).dataBytes = [9] :=
  claim_C3_amended ⟨[(7, 7)], [9]⟩ 0 GDT.Byte true 3 false true id [3, 3]
    (by decide) (by decide)

/-- Claim C4: when the index entry of a tile has size zero and fetching is not
possible or not permitted (nonzero offset, update mode, no configured source,
or read only index mode), `IReadBlock` fills the output buffer, and the fill
makes every element the declared NoData value converted to the band datatype,
or zero when NoData is undeclared (mrf_band.cpp lines 569 to 578 and 270 to
295). -/
theorem claim_C4 (tinfoOffset tinfoSize : Nat)
    (accessIsUpdate sourceEmpty idxModeRead : Bool) (hasNoData : Bool) (ndv : Int)
    (dt : GDT) (count : Nat) (h0 : tinfoSize = 0)
    (h1 : tinfoOffset ≠ 0 ∨ accessIsUpdate = true ∨ sourceEmpty = true ∨ idxModeRead = true) :
    IReadBlockDispatch tinfoOffset tinfoSize accessIsUpdate sourceEmpty idxModeRead =
      ReadAction.fill ∧
    FillBlock hasNoData ndv dt count =
      List.replicate count (if hasNoData then castTo dt ndv else 0) := by
  constructor
  · simp [IReadBlockDispatch, h0, h1]
  · cases hasNoData <;> cases dt <;> simp [FillBlock, buff_fill, castTo]

/-- Witness for claim C4 at a concrete input: a confirmed empty entry (offset 1,
size 0) on an Int16 band with NoData 7 dispatches to fill, and the fill is all
sevens. -/
theorem claim_C4_witness :
    IReadBlockDispatch 1 0 false false false = ReadAction.fill ∧
    FillBlock true 7 GDT.Int16 3 = List.replicate 3 (if true then castTo GDT.Int16 7 else 0) :=
  claim_C4 1 0 false false false true 7 GDT.Int16 3 rfl (Or.inl (by decide))

/-- Claim C5: for an interleaved write, a zero length index entry is written if
and only if the per band empties bitmask reaches the all bands mask; when it
does not, the assembled page holding all bands is run through the compression
pipeline and stored as one tile (mrf_band.cpp lines 707 to 774). -/
theorem claim_C5 (store : MRFStore) (idxPos : Nat) (dt : GDT) (hasNoDataList : Bool)
    (ndv : Nat) (count : Nat) (f : List (Option Nat) → List Nat)
    (bands : List (Option (List Nat)))
    (hp : idxPos < store.index.length)
    (hf : 0 < (f (assemble count bands)).length) :
    ((( IWriteBlockInterleaved store idxPos dt hasNoDataList ndv count f
          bands).index.getD idxPos (1, 1)).2 = 0 ↔
        computeEmpties dt hasNoDataList ndv bands 0 = AllBandMask bands.length) ∧
    (computeEmpties dt hasNoDataList ndv bands 0 ≠ AllBandMask bands.length →
      ( IWriteBlockInterleaved store idxPos dt hasNoDataList ndv count f
          bands).dataBytes = store.dataBytes ++ f (assemble count bands)) := by
  unfold IWriteBlockInterleaved
  split_ifs with h
  · refine ⟨?_, fun hne => absurd h hne⟩
    unfold WriteTile
    rw [getD_set_self store.index idxPos (0, 0) (1, 1) hp]
    simpa using h
  · refine ⟨?_, fun _ => rfl⟩
    unfold WriteTile
    rw [getD_set_self store.index idxPos
      (store.dataBytes.length, (f (assemble count bands)).length) (1, 1) hp]
    constructor
    · intro hlen
      omega
    · intro hc
      exact absurd hc h

/-- Witness for claim C5 at a concrete input: one resident, nonzero band makes
the empties mask fall short of the all bands mask, so the assembled page is
stored and the index entry is not zero length. -/
theorem claim_C5_witness :
    ((( IWriteBlockInterleaved ⟨[(7, 7)], []⟩ 0 GDT.Byte false 0 1 flattenPage
          [some [1]]).index.getD 0 (1, 1)).2 = 0 ↔
        computeEmpties GDT.Byte false 0 [some [1]] 0 = AllBandMask 1) ∧
    (computeEmpties GDT.Byte false 0 [some [1]] 0 ≠ AllBandMask 1 →
      ( IWriteBlockInterleaved ⟨[(7, 7)], []⟩ 0 GDT.Byte false 0 1 flattenPage
          [some [1]]).dataBytes = [] ++ flattenPage (assemble 1 [some [1]])) :=
  claim_C5 ⟨[(7, 7)], []⟩ 0 GDT.Byte false 0 1 flattenPage [some [1]]
    (by decide) (by decide)

/-- Claim C6: on a stored tile read with the deflate stage enabled, when the
inflate of the stored bytes fails, the read warns and runs the decodec on the
original stored bytes instead of failing at that stage (mrf_band.cpp lines 606
to 620). -/
theorem claim_C6 (inflate decompress : List Nat → Option (List Nat)) (data : List Nat)
    (hfail : inflate data = none) :
    IReadBlockStored true inflate decompress data = (decompress data, true) := by
  simp [IReadBlockStored, readStoredTile, hfail]

/-- Witness for claim C6 at a concrete input: with an inflate that fails, the
decodec runs on the stored bytes and the warning flag is set. -/
theorem claim_C6_witness :
    IReadBlockStored true inflateFail decompressSome [3, 1] = (some [3, 1], true) :=
  claim_C6 inflateFail decompressSome [3, 1] rfl

/-- Claim C7, divergence record: for a non network order store of Int16 data,
the band separate write path byte swaps the tile before the compression
pipeline (element 0x0102 is stored as 0x0201), but the interleaved write path
hands the assembled page to the pipeline without any byte swap, although
swapping would change it.  The claim (and the read path, mrf_band.cpp line
638, which swaps both layouts) requires the swap in both write paths. -/
theorem claim_C7_code_divergence :
    ( IWriteBlockSeparate ⟨[(7, 7)], []⟩ 0 GDT.Int16 false 0 true false id
        [258]).dataBytes = [513] ∧
    ( IWriteBlockInterleaved ⟨[(7, 7)], []⟩ 0 GDT.Int16 false 0 1 flattenPage
        [some [258], some [258]]).dataBytes = [258, 258] ∧
    swab_buff GDT.Int16 [258, 258] ≠ [258, 258] := by decide

end MRF
